import Mathlib

/-!
Shallow embedding of `nilcc-attester/gpu-attester/main.py` (the nilcc GPU
attestation CLI shim) and verification of its specification claims.

The program parses one positional argument (a nonce), mutes two logger
channels, imports the vendor attestation SDK, builds an attestation client,
requests evidence, attests it, and on success prints the base64 encoding of
the token's UTF-8 bytes.  The vendor SDK is external to the repository and is
modelled as an opaque behaviour parameter (evidence value, attestation
verdict, issued token), matching the spec's "deterministic mocked SDK".
-/

namespace Nilcc

/-! ### Base64 encoding (models Python `base64.b64encode`, standard alphabet) -/

/-- The standard base64 alphabet as a function from a 6-bit index to a
character: `A`-`Z` for 0-25, `a`-`z` for 26-51, `0`-`9` for 52-61, `+` for
62, `/` for 63.  Out-of-range indices give the padding character `=`. -/
def b64char (i : Nat) : Char :=
  if i < 26 then Char.ofNat (65 + i)
  else if i < 52 then Char.ofNat (97 + (i - 26))
  else if i < 62 then Char.ofNat (48 + (i - 52))
  else if i = 62 then '+'
  else if i = 63 then '/'
  else '='

/-- Base64-encode a byte sequence, three bytes to four characters, padding
the final group with `=` as `base64.b64encode` does. -/
def b64encodeBytes : List Nat → List Char
  | [] => []
  | [b1] =>
      [b64char (b1 / 4), b64char (b1 % 4 * 16), '=', '=']
  | [b1, b2] =>
      [b64char (b1 / 4), b64char (b1 % 4 * 16 + b2 / 16), b64char (b2 % 16 * 4), '=']
  | b1 :: b2 :: b3 :: rest =>
      b64char (b1 / 4) :: b64char (b1 % 4 * 16 + b2 / 16) ::
      b64char (b2 % 16 * 4 + b3 / 64) :: b64char (b3 % 64) :: b64encodeBytes rest

/-- The 6-bit value of a base64 alphabet character (inverse of `b64char`). -/
def b64charVal (c : Char) : Nat :=
  if 65 ≤ c.toNat ∧ c.toNat ≤ 90 then c.toNat - 65
  else if 97 ≤ c.toNat ∧ c.toNat ≤ 122 then c.toNat - 97 + 26
  else if 48 ≤ c.toNat ∧ c.toNat ≤ 57 then c.toNat - 48 + 52
  else if c = '+' then 62
  else if c = '/' then 63
  else 0

/-- Base64-decode a character sequence, four characters (with optional `=`
padding in the last group) back to bytes; models `base64.b64decode` on
well-formed input. -/
def b64decodeChars : List Char → List Nat
  | c1 :: c2 :: c3 :: c4 :: rest =>
      let v1 := b64charVal c1
      let v2 := b64charVal c2
      let b1 := v1 * 4 + v2 / 16
      if c3 = '=' then [b1]
      else
        let v3 := b64charVal c3
        let b2 := v2 % 16 * 16 + v3 / 4
        if c4 = '=' then [b1, b2]
        else b1 :: b2 :: (v3 % 4 * 64 + b64charVal c4) :: b64decodeChars rest
  | _ => []

/-! ### UTF-8 encoding (models Python `str.encode("utf-8")`) -/

/-- UTF-8 encoding of a single Unicode scalar value as a list of bytes. -/
def utf8EncodeChar (c : Char) : List Nat :=
  let n := c.toNat
  if n < 0x80 then [n]
  else if n < 0x800 then [0xC0 + n / 64, 0x80 + n % 64]
  else if n < 0x10000 then [0xE0 + n / 4096, 0x80 + n / 64 % 64, 0x80 + n % 64]
  else [0xF0 + n / 262144, 0x80 + n / 4096 % 64, 0x80 + n / 64 % 64, 0x80 + n % 64]

/-- The UTF-8 bytes of a string: Python's `s.encode("utf-8")`. -/
def utf8Bytes (s : String) : List Nat :=
  s.data.foldr (fun c acc => utf8EncodeChar c ++ acc) []

/-- Base64 of a byte list as a string: models
`base64.b64encode(bs).decode("utf-8")`. -/
def b64encodeStr (bs : List Nat) : String :=
  String.mk (b64encodeBytes bs)

/-! ### Python `str.strip()` -/

/-- The characters Python's `str.strip()` removes: exactly those `c` with
`c.isspace()` true (ASCII whitespace, the C1 separators, and the Unicode
space separators). -/
def pyWhitespace : List Char :=
  ['\t', '\n', '\u000b', '\u000c', '\r', '\u001c', '\u001d', '\u001e', '\u001f',
   ' ', '\u0085', '\u00a0', '\u1680',
   '\u2000', '\u2001', '\u2002', '\u2003', '\u2004', '\u2005', '\u2006',
   '\u2007', '\u2008', '\u2009', '\u200a', '\u2028', '\u2029', '\u202f',
   '\u205f', '\u3000']

/-- Whether Python's `str.strip()` considers `c` whitespace. -/
def pyIsSpace (c : Char) : Bool :=
  pyWhitespace.contains c

/-- `str.strip()` on a character list: drop whitespace from both ends. -/
def stripList (l : List Char) : List Char :=
  ((l.dropWhile pyIsSpace).reverse.dropWhile pyIsSpace).reverse

/-- Python's `s.strip()` (no argument form). -/
def pyStrip (s : String) : String :=
  String.mk (stripList s.data)

/-! ### Logging model (models the `logging` standard library as used here) -/

/-- `logging.CRITICAL` in Python. -/
def CRITICAL : Nat := 50

/-- An output stream a handler can be bound to. -/
inductive OutStream where
  | stdout
  | stderr
deriving DecidableEq, BEq

/-- The state of one named logger: its name, its level threshold and its
attached stream handlers. -/
structure LoggerState where
  name : String
  level : Nat
  handlers : List OutStream
deriving DecidableEq, BEq

/-- `disable_logging(name)` from the source: fetch the logger called `name`,
set its level to `logging.CRITICAL + 1`, and attach a
`logging.StreamHandler(sys.stderr)`.  Returns the logger's resulting state. -/
def disable_logging (name : String) : LoggerState :=
  { name := name, level := CRITICAL + 1, handlers := [OutStream.stderr] }

/-- Whether a record of severity `lvl` passes the logger's level threshold
(Python: `record.levelno >= logger.level`). -/
def LoggerState.admits (st : LoggerState) (lvl : Nat) : Bool :=
  st.level ≤ lvl

/-- The streams a record of severity `lvl` is written to by this logger's
own handlers. -/
def LoggerState.emitTargets (st : LoggerState) (lvl : Nat) : List OutStream :=
  if st.admits lvl then st.handlers else []

/-! ### The vendor SDK as an opaque behaviour parameter -/

/-- `attestation.Devices` as used by the program. -/
inductive Device where
  | GPU
deriving DecidableEq, BEq

/-- `attestation.Environment` as used by the program. -/
inductive Env where
  | REMOTE
deriving DecidableEq, BEq

/-- The fixed NRAS endpoint URL from the source. -/
def NRAS_URL : String := "https://nras.attestation.nvidia.com/v3/attest/gpu"

/-- A deterministic (mocked) behaviour of the external attestation SDK:
the evidence `get_evidence` returns, the verdict `attest` gives on a piece
of evidence, and the token `get_token` returns. -/
structure SDK (Ev : Type) where
  evidence : Ev
  attestResult : Ev → Bool
  token : String

/-- The configuration accumulated on the attestation client by `set_name`,
`set_nonce` and `add_verifier`. -/
structure ClientState where
  name : String
  nonce : String
  verifiers : List (Device × Env × String × String)
deriving DecidableEq, BEq

/-! ### Trace semantics of `main()` -/

/-- Observable events of one invocation, in program order. -/
inductive Event where
  | disableLog (name : String)
  | importSDK
  | usageError
  | clientNew
  | setName (s : String)
  | setNonce (s : String)
  | addVerifier (d : Device) (e : Env) (url : String) (extra : String)
  | getEvidence
  | attest
  | getToken
deriving DecidableEq, BEq

/-- Models argparse with `prog="gpu-attester"` and one required positional
`nonce`: exactly one argument parses, anything else is a usage error.
(Option-prefixed arguments such as `-h` follow argparse's own library
behaviour and are outside the modelled surface.) -/
def parseArgs : List String → Option String
  | [a] => some a
  | _ => none

/-- The stderr text argparse produces for a missing `nonce` argument. -/
def usageMessage : String :=
  "usage: gpu-attester [-h] nonce\ngpu-attester: error: the following arguments are required: nonce\n"

/-- The outcome of one invocation: the event trace, the client configuration
(if one was constructed), the text on each standard stream, and the exit
status. -/
structure RunResult where
  trace : List Event
  client : Option ClientState
  stdout : String
  stderr : String
  exitCode : Nat
deriving DecidableEq, BEq

/-- The events `main()` performs before parsing arguments, in source order:
`disable_logging("sdk-logger")`, then the `nv_attestation_sdk` import, then
`disable_logging("gpu-verifier-info")`. -/
def preludeTrace : List Event :=
  [Event.disableLog "sdk-logger", Event.importSDK, Event.disableLog "gpu-verifier-info"]

/-- `main()` from the source, as a function of the SDK behaviour and the
command-line arguments (excluding the program name). -/
def runMain {Ev : Type} (sdk : SDK Ev) (argv : List String) : RunResult :=
  match parseArgs argv with
  | none =>
      { trace := preludeTrace ++ [Event.usageError]
        client := none
        stdout := ""
        stderr := usageMessage
        exitCode := 2 }
  | some nonce =>
      let client : ClientState :=
        { name := "nilcc-gpu-attestation"
          nonce := nonce
          verifiers := [(Device.GPU, Env.REMOTE, NRAS_URL, "")] }
      let setupTrace := preludeTrace ++
        [Event.clientNew, Event.setName "nilcc-gpu-attestation", Event.setNonce nonce,
         Event.addVerifier Device.GPU Env.REMOTE NRAS_URL "", Event.getEvidence]
      let evidence := sdk.evidence
      if sdk.attestResult evidence then
        let token := sdk.token
        let b64_token := pyStrip (b64encodeStr (utf8Bytes token))
        { trace := setupTrace ++ [Event.attest, Event.getToken]
          client := some client
          stdout := b64_token ++ "\n"
          stderr := ""
          exitCode := 0 }
      else
        { trace := setupTrace ++ [Event.attest]
          client := some client
          stdout := ""
          stderr := "could not generate attestation\n"
          exitCode := 1 }

/-! ### Trace predicates -/

/-- `true` iff `e` is the SDK module import. -/
def isImport : Event → Bool
  | Event.importSDK => true
  | _ => false

/-- `true` iff `e` is a call into the SDK's attestation API (client
construction, configuration, evidence, attest or token retrieval). -/
def isApiCall : Event → Bool
  | Event.clientNew => true
  | Event.setName _ => true
  | Event.setNonce _ => true
  | Event.addVerifier _ _ _ _ => true
  | Event.getEvidence => true
  | Event.attest => true
  | Event.getToken => true
  | _ => false

/-- Scans a trace left to right and checks that every event satisfying
`isTarget` happens only after `disableLog name`; `muted` records whether
the muting has already happened. -/
def eventsAfterMute (isTarget : Event → Bool) (name : String) :
    List Event → Bool → Bool
  | [], _ => true
  | e :: rest, muted =>
      let muted' := muted || (match e with
        | Event.disableLog n => n == name
        | _ => false)
      (!(isTarget e) || muted) && eventsAfterMute isTarget name rest muted'

/-- The property claimed for logger `name`: it is muted before every
SDK import in the trace. -/
def mutedBeforeImport (name : String) (tr : List Event) : Bool :=
  eventsAfterMute isImport name tr false

/-- Logger `name` is muted before every SDK attestation API call in the
trace. -/
def mutedBeforeApiCalls (name : String) (tr : List Event) : Bool :=
  eventsAfterMute isApiCall name tr false

/-- `true` iff the trace contains no SDK activity at all (neither the
module import nor any attestation API call). -/
def noSDKCodeRan (tr : List Event) : Bool :=
  tr.all (fun e => !(isImport e || isApiCall e))

/-! ### Concrete SDK behaviours for witnesses and counterexamples -/

/-- A mocked SDK whose attestation succeeds with token `"token"`. -/
def sdkOk : SDK Unit :=
  { evidence := (), attestResult := fun _ => true, token := "token" }

/-- A mocked SDK whose attestation fails. -/
def sdkFail : SDK Unit :=
  { evidence := (), attestResult := fun _ => false, token := "token" }

/-! ### Helper lemmas: the base64 alphabet and its inverse -/

set_option maxHeartbeats 1000000 in
theorem b64char_inv : ∀ i < 64, b64charVal (b64char i) = i ∧ b64char i ≠ '=' := by
  decide

theorem b64charVal_b64char {i : Nat} (h : i < 64) : b64charVal (b64char i) = i :=
  (b64char_inv i h).1

theorem b64char_ne_pad {i : Nat} (h : i < 64) : b64char i ≠ '=' :=
  (b64char_inv i h).2

/-- Decoding inverts encoding on any byte sequence. -/
theorem b64_decode_encode (bs : List Nat) (h : ∀ b ∈ bs, b < 256) :
    b64decodeChars (b64encodeBytes bs) = bs := by
  induction bs using b64encodeBytes.induct with
  | case1 => rfl
  | case2 b1 =>
      have h1 : b1 < 256 := h b1 (by simp)
      rw [b64encodeBytes, b64decodeChars]
      rw [if_pos rfl]
      rw [b64charVal_b64char (by omega), b64charVal_b64char (by omega)]
      congr 1
      omega
  | case3 b1 b2 =>
      have h1 : b1 < 256 := h b1 (by simp)
      have h2 : b2 < 256 := h b2 (by simp)
      rw [b64encodeBytes, b64decodeChars]
      rw [if_neg (b64char_ne_pad (by omega))]
      rw [if_pos rfl]
      rw [b64charVal_b64char (by omega), b64charVal_b64char (by omega),
          b64charVal_b64char (by omega)]
      congr 1
      · omega
      congr 1
      omega
  | case4 b1 b2 b3 rest ih =>
      have h1 : b1 < 256 := h b1 (by simp)
      have h2 : b2 < 256 := h b2 (by simp)
      have h3 : b3 < 256 := h b3 (by simp)
      have hrest : ∀ b ∈ rest, b < 256 := fun b hb => h b (by simp [hb])
      rw [b64encodeBytes, b64decodeChars]
      rw [if_neg (b64char_ne_pad (by omega)), if_neg (b64char_ne_pad (by omega))]
      rw [b64charVal_b64char (by omega), b64charVal_b64char (by omega),
          b64charVal_b64char (by omega), b64charVal_b64char (by omega)]
      rw [ih hrest]
      congr 1
      · omega
      congr 1
      · omega
      congr 1
      omega

/-! ### Helper lemmas: base64 output contains no whitespace -/

set_option maxHeartbeats 1000000 in
theorem b64char_not_space_lt : ∀ i < 65, pyIsSpace (b64char i) = false := by
  decide

theorem b64char_ge64 {i : Nat} (h : 64 ≤ i) : b64char i = '=' := by
  unfold b64char
  rw [if_neg (by omega), if_neg (by omega), if_neg (by omega),
      if_neg (by omega), if_neg (by omega)]

theorem b64char_not_space (i : Nat) : pyIsSpace (b64char i) = false := by
  by_cases h : i < 65
  · exact b64char_not_space_lt i h
  · rw [b64char_ge64 (by omega)]
    decide

theorem mem_encode_not_space {c : Char} {bs : List Nat}
    (hc : c ∈ b64encodeBytes bs) : pyIsSpace c = false := by
  induction bs using b64encodeBytes.induct with
  | case1 => simp [b64encodeBytes] at hc
  | case2 b1 =>
      simp only [b64encodeBytes, List.mem_cons, List.not_mem_nil, or_false] at hc
      rcases hc with rfl | rfl | rfl | rfl
      · exact b64char_not_space _
      · exact b64char_not_space _
      · decide
      · decide
  | case3 b1 b2 =>
      simp only [b64encodeBytes, List.mem_cons, List.not_mem_nil, or_false] at hc
      rcases hc with rfl | rfl | rfl | rfl
      · exact b64char_not_space _
      · exact b64char_not_space _
      · exact b64char_not_space _
      · decide
  | case4 b1 b2 b3 rest ih =>
      simp only [b64encodeBytes, List.mem_cons] at hc
      rcases hc with rfl | rfl | rfl | rfl | hmem
      · exact b64char_not_space _
      · exact b64char_not_space _
      · exact b64char_not_space _
      · exact b64char_not_space _
      · exact ih hmem

theorem dropWhile_eq_self_of_not (l : List Char)
    (h : ∀ c ∈ l, pyIsSpace c = false) : l.dropWhile pyIsSpace = l := by
  cases l with
  | nil => rfl
  | cons a t =>
      rw [List.dropWhile_cons]
      simp [h a (by simp)]

theorem stripList_eq_self (l : List Char)
    (h : ∀ c ∈ l, pyIsSpace c = false) : stripList l = l := by
  unfold stripList
  rw [dropWhile_eq_self_of_not l h,
      dropWhile_eq_self_of_not l.reverse (fun c hc => h c (List.mem_reverse.mp hc)),
      List.reverse_reverse]

/-- `.strip()` does not change a base64-encoded string. -/
theorem pyStrip_b64encodeStr (bs : List Nat) :
    pyStrip (b64encodeStr bs) = b64encodeStr bs := by
  show String.mk (stripList (b64encodeBytes bs)) = String.mk (b64encodeBytes bs)
  rw [stripList_eq_self _ (fun _ hc => mem_encode_not_space hc)]

/-! ### Helper lemmas: UTF-8 bytes are bytes -/

theorem char_toNat_lt_max (c : Char) : c.toNat < 0x110000 := by
  rcases c.valid with h | ⟨_, h2⟩
  · exact Nat.lt_trans h (by decide)
  · exact h2

theorem utf8EncodeChar_lt (c : Char) : ∀ b ∈ utf8EncodeChar c, b < 256 := by
  have hc := char_toNat_lt_max c
  unfold utf8EncodeChar
  dsimp only
  split_ifs with h1 h2 h3 <;> intro b hb <;>
    simp only [List.mem_cons, List.not_mem_nil, or_false] at hb <;>
    rcases hb with rfl | rfl | rfl | rfl <;> omega

theorem utf8Bytes_lt (s : String) : ∀ b ∈ utf8Bytes s, b < 256 := by
  unfold utf8Bytes
  induction s.data with
  | nil => simp
  | cons c t ih =>
      simp only [List.foldr_cons, List.mem_append]
      rintro b (hb | hb)
      · exact utf8EncodeChar_lt c b hb
      · exact ih b hb

/-! ### Helper lemmas: reductions of `runMain` -/

theorem parseArgs_some {argv : List String} {n : String}
    (h : parseArgs argv = some n) : argv = [n] := by
  match argv with
  | [] => exact absurd h (by simp [parseArgs])
  | [a] => rw [Option.some.inj h]
  | a :: b :: t => exact absurd h (by simp [parseArgs])

theorem runMain_success {Ev : Type} (sdk : SDK Ev) (nonce : String)
    (h : sdk.attestResult sdk.evidence = true) :
    runMain sdk [nonce] =
      { trace := [Event.disableLog "sdk-logger", Event.importSDK,
                  Event.disableLog "gpu-verifier-info", Event.clientNew,
                  Event.setName "nilcc-gpu-attestation", Event.setNonce nonce,
                  Event.addVerifier Device.GPU Env.REMOTE NRAS_URL "",
                  Event.getEvidence, Event.attest, Event.getToken]
        client := some { name := "nilcc-gpu-attestation", nonce := nonce,
                         verifiers := [(Device.GPU, Env.REMOTE, NRAS_URL, "")] }
        stdout := pyStrip (b64encodeStr (utf8Bytes sdk.token)) ++ "\n"
        stderr := ""
        exitCode := 0 } := by
  show (if sdk.attestResult sdk.evidence then _ else _) = _
  rw [h]
  rw [if_pos rfl]
  rfl

theorem runMain_failure {Ev : Type} (sdk : SDK Ev) (nonce : String)
    (h : sdk.attestResult sdk.evidence = false) :
    runMain sdk [nonce] =
      { trace := [Event.disableLog "sdk-logger", Event.importSDK,
                  Event.disableLog "gpu-verifier-info", Event.clientNew,
                  Event.setName "nilcc-gpu-attestation", Event.setNonce nonce,
                  Event.addVerifier Device.GPU Env.REMOTE NRAS_URL "",
                  Event.getEvidence, Event.attest]
        client := some { name := "nilcc-gpu-attestation", nonce := nonce,
                         verifiers := [(Device.GPU, Env.REMOTE, NRAS_URL, "")] }
        stdout := ""
        stderr := "could not generate attestation\n"
        exitCode := 1 } := by
  show (if sdk.attestResult sdk.evidence then _ else _) = _
  rw [h]
  rw [if_neg (by simp)]
  rfl

/-! ### The claims -/

/-- Claim C1: with exactly one command-line argument and a successful
attestation with token `T`, the program prints exactly the base64 encoding of
`T`'s UTF-8 bytes as a single line on standard output (no trailing
characters before the newline) and exits with status 0. -/
theorem success_prints_b64_token {Ev : Type} (sdk : SDK Ev) (nonce : String)
    (h : sdk.attestResult sdk.evidence = true) :
    (runMain sdk [nonce]).stdout = b64encodeStr (utf8Bytes sdk.token) ++ "\n" ∧
    (runMain sdk [nonce]).exitCode = 0 := by
  rw [runMain_success sdk nonce h]
  exact ⟨by rw [pyStrip_b64encodeStr], rfl⟩

/-- Witness for C1 at the concrete SDK `sdkOk` and nonce `"abc"`. -/
theorem success_prints_b64_token_witness :
    (runMain sdkOk ["abc"]).stdout = b64encodeStr (utf8Bytes sdkOk.token) ++ "\n" ∧
    (runMain sdkOk ["abc"]).exitCode = 0 :=
  success_prints_b64_token sdkOk "abc" rfl

/-- Claim C2: when the SDK's attest call returns a falsy result, the program
writes exactly the line `could not generate attestation` (newline-terminated)
to standard error, exits with status 1, produces no standard output, and
calls attest at most once. -/
theorem attest_failure_stderr_exit1 {Ev : Type} (sdk : SDK Ev) (nonce : String)
    (h : sdk.attestResult sdk.evidence = false) :
    (runMain sdk [nonce]).stderr = "could not generate attestation\n" ∧
    (runMain sdk [nonce]).exitCode = 1 ∧
    (runMain sdk [nonce]).stdout = "" ∧
    (runMain sdk [nonce]).trace.count Event.attest ≤ 1 := by
  rw [runMain_failure sdk nonce h]
  exact ⟨rfl, rfl, rfl, Nat.le_refl 1⟩

/-- Witness for C2 at the concrete SDK `sdkFail` and nonce `"abc"`. -/
theorem attest_failure_stderr_exit1_witness :
    (runMain sdkFail ["abc"]).stderr = "could not generate attestation\n" ∧
    (runMain sdkFail ["abc"]).exitCode = 1 ∧
    (runMain sdkFail ["abc"]).stdout = "" ∧
    (runMain sdkFail ["abc"]).trace.count Event.attest ≤ 1 :=
  attest_failure_stderr_exit1 sdkFail "abc" rfl

/-- Counterexample to claim C3 as stated: in a concrete successful run, it is
not the case that both logger channels are muted before the SDK import —
`gpu-verifier-info` is muted only after the import. -/
theorem muting_order_counterexample :
    ¬ (mutedBeforeImport "sdk-logger" (runMain sdkOk ["nonce"]).trace = true ∧
       mutedBeforeImport "gpu-verifier-info" (runMain sdkOk ["nonce"]).trace = true) := by
  decide

/-- Claim C3 amended: in every invocation, `sdk-logger` is muted before the
vendor SDK module is imported, and `gpu-verifier-info` is muted after
the import but before any SDK attestation API call. -/
theorem muting_order_amended {Ev : Type} (sdk : SDK Ev) (argv : List String) :
    mutedBeforeImport "sdk-logger" (runMain sdk argv).trace = true ∧
    mutedBeforeApiCalls "gpu-verifier-info" (runMain sdk argv).trace = true := by
  unfold runMain
  cases parseArgs argv with
  | none => exact ⟨rfl, rfl⟩
  | some nonce =>
      cases h : sdk.attestResult sdk.evidence with
      | true =>
          simp only [h, if_true]
          exact ⟨rfl, rfl⟩
      | false =>
          simp only [h]
          exact ⟨rfl, rfl⟩

/-- Counterexample to claim C4 as stated: with zero arguments, it is not true
that no vendor SDK code runs before the usage failure — the SDK module
is imported (its module-level code executes) before arguments are parsed. -/
theorem usage_sdk_import_counterexample :
    ¬ (noSDKCodeRan (runMain sdkOk []).trace = true) := by
  decide

/-- Claim C4 amended: with zero command-line arguments, the program exits
with a non-zero status and produces the usage message on standard error,
and no SDK attestation API is invoked (no client construction, evidence
collection, attest call, or token retrieval); the SDK module import itself,
however, does happen before argument parsing. -/
theorem usage_error_no_api_calls {Ev : Type} (sdk : SDK Ev) :
    (runMain sdk []).exitCode ≠ 0 ∧
    (runMain sdk []).stderr = usageMessage ∧
    (runMain sdk []).stdout = "" ∧
    (runMain sdk []).trace.all (fun e => !isApiCall e) = true := by
  exact ⟨Nat.succ_ne_zero 1, rfl, rfl, rfl⟩

/-- Claim C5: on the success path, base64-decoding the line printed on
standard output reproduces the UTF-8 bytes of the token byte-for-byte. -/
theorem printed_line_roundtrip {Ev : Type} (sdk : SDK Ev) (nonce : String)
    (h : sdk.attestResult sdk.evidence = true) :
    (runMain sdk [nonce]).stdout = b64encodeStr (utf8Bytes sdk.token) ++ "\n" ∧
    b64decodeChars (b64encodeStr (utf8Bytes sdk.token)).data = utf8Bytes sdk.token := by
  constructor
  · rw [runMain_success sdk nonce h]
    rw [pyStrip_b64encodeStr]
  · exact b64_decode_encode _ (utf8Bytes_lt sdk.token)

/-- Witness for C5 at the concrete SDK `sdkOk` and nonce `"abc"`. -/
theorem printed_line_roundtrip_witness :
    (runMain sdkOk ["abc"]).stdout = b64encodeStr (utf8Bytes sdkOk.token) ++ "\n" ∧
    b64decodeChars (b64encodeStr (utf8Bytes sdkOk.token)).data = utf8Bytes sdkOk.token :=
  printed_line_roundtrip sdkOk "abc" rfl

/-- Counterexample to claim C6 as stated: after `disable_logging`, a record
of exactly critical severity is not admitted — the level is set to
`CRITICAL + 1`, which suppresses critical records too. -/
theorem critical_admitted_counterexample :
    ¬ ((disable_logging "sdk-logger").admits CRITICAL = true) := by
  decide

/-- Claim C6 amended: `disable_logging` mutes the named logger to
strictly-above-critical severity: a record is admitted if and only if its
severity is strictly greater than critical, so every record at or below
critical severity (critical itself included) is suppressed. -/
theorem disable_logging_strictly_above_critical (name : String) (lvl : Nat) :
    (disable_logging name).admits lvl = true ↔ CRITICAL < lvl := by
  simp only [disable_logging, LoggerState.admits, CRITICAL, decide_eq_true_eq]
  omega

/-- Claim C7: every invocation that reaches client construction configures
the client with exactly the fixed name `nilcc-gpu-attestation`, the
caller-supplied nonce unmodified, and exactly one registered verifier:
GPU device class, remote environment, the fixed NRAS URL, and an empty
extra-parameter string. -/
theorem client_config {Ev : Type} (sdk : SDK Ev) (argv : List String)
    (c : ClientState) (h : (runMain sdk argv).client = some c) :
    c.name = "nilcc-gpu-attestation" ∧ argv = [c.nonce] ∧
    c.verifiers = [(Device.GPU, Env.REMOTE, NRAS_URL, "")] := by
  cases hp : parseArgs argv with
  | none =>
      unfold runMain at h
      rw [hp] at h
      exact absurd h (by simp)
  | some n =>
      obtain rfl : argv = [n] := parseArgs_some hp
      cases hb : sdk.attestResult sdk.evidence with
      | true =>
          rw [runMain_success sdk n hb] at h
          simp only [Option.some.injEq] at h
          subst h
          exact ⟨rfl, rfl, rfl⟩
      | false =>
          rw [runMain_failure sdk n hb] at h
          simp only [Option.some.injEq] at h
          subst h
          exact ⟨rfl, rfl, rfl⟩

/-- Witness for C7 at the concrete SDK `sdkOk` and nonce `"abc"`. -/
theorem client_config_witness :
    ClientState.name { name := "nilcc-gpu-attestation", nonce := "abc",
                       verifiers := [(Device.GPU, Env.REMOTE, NRAS_URL, "")] } =
      "nilcc-gpu-attestation" ∧
    ["abc"] = [ClientState.nonce { name := "nilcc-gpu-attestation", nonce := "abc",
                                   verifiers := [(Device.GPU, Env.REMOTE, NRAS_URL, "")] }] ∧
    ClientState.verifiers { name := "nilcc-gpu-attestation", nonce := "abc",
                            verifiers := [(Device.GPU, Env.REMOTE, NRAS_URL, "")] } =
      [(Device.GPU, Env.REMOTE, NRAS_URL, "")] :=
  client_config sdkOk ["abc"]
    { name := "nilcc-gpu-attestation", nonce := "abc",
      verifiers := [(Device.GPU, Env.REMOTE, NRAS_URL, "")] } rfl

/-- Claim C8: the program is deterministic — two invocations with the same
arguments against the same deterministic (mocked) SDK behaviour produce
identical standard output and identical exit status. -/
theorem deterministic_runs {Ev : Type} (sdk : SDK Ev) (argv : List String)
    (r1 r2 : RunResult) (h1 : r1 = runMain sdk argv) (h2 : r2 = runMain sdk argv) :
    r1.stdout = r2.stdout ∧ r1.exitCode = r2.exitCode := by
  subst h1
  subst h2
  exact ⟨rfl, rfl⟩

/-- Witness for C8: two concrete runs with nonce `"abc"` against `sdkOk`. -/
theorem deterministic_runs_witness :
    (runMain sdkOk ["abc"]).stdout = (runMain sdkOk ["abc"]).stdout ∧
    (runMain sdkOk ["abc"]).exitCode = (runMain sdkOk ["abc"]).exitCode :=
  deterministic_runs sdkOk ["abc"] (runMain sdkOk ["abc"]) (runMain sdkOk ["abc"]) rfl rfl

/-- Claim C9: the final `.strip()` on the encoded token is a no-op — for
every string `T`, stripping the base64 encoding of `T`'s UTF-8 bytes
changes nothing, because base64 output contains no whitespace. -/
theorem strip_noop_on_b64_output (T : String) :
    pyStrip (b64encodeStr (utf8Bytes T)) = b64encodeStr (utf8Bytes T) :=
  pyStrip_b64encodeStr (utf8Bytes T)

/-- Claim C10: `disable_logging` attaches a stream handler bound to standard
error, so a record that passes the level threshold is written to stderr and
never to stdout. -/
theorem handlers_only_stderr (name : String) (lvl : Nat) :
    (disable_logging name).handlers = [OutStream.stderr] ∧
    (disable_logging name).emitTargets lvl =
      (if CRITICAL < lvl then [OutStream.stderr] else []) ∧
    OutStream.stdout ∉ (disable_logging name).emitTargets lvl := by
  refine ⟨rfl, ?_, ?_⟩
  · simp only [LoggerState.emitTargets, LoggerState.admits, disable_logging, CRITICAL]
    by_cases hl : 50 < lvl
    · rw [if_pos (by simpa using (by omega : 50 + 1 ≤ lvl)), if_pos hl]
    · rw [if_neg (by simpa using (by omega : ¬ 50 + 1 ≤ lvl)), if_neg hl]
  · simp only [LoggerState.emitTargets, LoggerState.admits, disable_logging, CRITICAL]
    by_cases hl : 50 < lvl
    · rw [if_pos (by simpa using (by omega : 50 + 1 ≤ lvl))]
      simp
    · rw [if_neg (by simpa using (by omega : ¬ 50 + 1 ≤ lvl))]
      simp

end Nilcc
